import Mathlib

/-!
Shallow embedding of the credential resolution and caching subsystem of the
mcp-turso-cloud server (src/clients/token-manager.ts, src/tools/context.ts,
src/tools/handler.ts, src/common/types.ts, src/common/errors.ts).

Conventions of the embedding:
* JavaScript `Date` values are modelled as `Int` milliseconds since epoch.
* A JavaScript object used as a string-keyed map (`TokenCache`,
  `client_cache`) is modelled as an association list with at most one
  binding per key (`alist_store` overwrites in place, exactly like
  assignment to an object property).
* Network effects (`fetch` in `generate_database_token`) are modelled by
  passing the outcome of the single HTTP call as an explicit argument.
* The Node library calls `Buffer.from(_, 'base64')`, `JSON.parse` and the
  `typeof payload.exp === 'number'` check — external library code, not part
  of this repository — are abstracted as a parameter
  `decode_exp : String → Option Int` that returns the numeric `exp` claim
  of a payload when the whole chain succeeds and `none` when any step of it
  throws or the claim is missing or non-numeric.
-/

namespace Turso

/-- The two permission levels of `'full-access' | 'read-only'`
(src/common/types.ts). -/
inductive Permission where
  | fullAccess
  | readOnly
deriving DecidableEq, Repr

/-- String form of a permission, as used in cache keys and request bodies. -/
def permission_string : Permission → String
  | .fullAccess => "full-access"
  | .readOnly => "read-only"

/-- Whitespace characters removed by the JavaScript `String.prototype.trim`
(restricted to the ASCII whitespace relevant to SQL text). -/
def js_whitespace (c : Char) : Bool :=
  c == ' ' || c == '\t' || c == '\n' || c == '\r' || c == '\x0c' || c == '\x0b'

/-- Embedding of JavaScript `String.prototype.trim`: drop leading and
trailing whitespace. -/
def js_trim (s : String) : String :=
  ⟨((s.data.dropWhile js_whitespace).reverse.dropWhile js_whitespace).reverse⟩

/-- Embedding of JavaScript `String.prototype.toLowerCase` on the ASCII
range: lowercase the letters A-Z. -/
def js_char_to_lower (c : Char) : Char :=
  if 'A' ≤ c ∧ c ≤ 'Z' then Char.ofNat (c.toNat + 32) else c

/-- Embedding of JavaScript `String.prototype.toLowerCase`. -/
def js_to_lower (s : String) : String :=
  ⟨s.data.map js_char_to_lower⟩

/-- Whether the first character list begins with the second. -/
def list_begins_with : List Char → List Char → Bool
  | _, [] => true
  | [], _ :: _ => false
  | c :: cs, p :: ps => if p = c then list_begins_with cs ps else false

/-- Embedding of JavaScript `String.prototype.startsWith`. -/
def js_starts_with (s pat : String) : Bool :=
  list_begins_with s.data pat.data

/-- Whether the second character list occurs inside the first. -/
def chars_contains : List Char → List Char → Bool
  | [], p => p.isEmpty
  | c :: rest, p => list_begins_with (c :: rest) p || chars_contains rest p

/-- Substring test, used to state what an error message is annotated with. -/
def str_contains (s pat : String) : Bool :=
  chars_contains s.data pat.data

/-- Embedding of JavaScript `String.prototype.split` with a one-character
separator, as in `jwt.split('.')`: split into the (possibly empty) pieces
between occurrences of the separator. -/
def chars_split_on (sep : Char) : List Char → List (List Char)
  | [] => [[]]
  | c :: rest =>
      match chars_split_on sep rest with
      | [] => if c = sep then [[], []] else [[c]]
      | piece :: pieces =>
          if c = sep then [] :: piece :: pieces else (c :: piece) :: pieces

/-- Embedding of JavaScript `String.prototype.split` at the string level. -/
def js_split (s : String) (sep : Char) : List String :=
  (chars_split_on sep s.data).map (fun cs => ⟨cs⟩)

/-- TursoApiError from src/common/errors.ts: a message plus HTTP status. -/
structure TursoApiError where
  message : String
  status_code : Int
deriving DecidableEq, Repr

/-- CachedToken from src/common/types.ts. -/
structure CachedToken where
  jwt : String
  expiresAt : Int
  permission : Permission
deriving DecidableEq, Repr

/-- TokenCache from src/common/types.ts: an object keyed by database name
only (`[databaseName: string]: CachedToken`). -/
abbrev TokenCache := List (String × CachedToken)

/-- Property lookup on a string-keyed JavaScript object. -/
def alist_lookup {α : Type} : List (String × α) → String → Option α
  | [], _ => none
  | (k, v) :: rest, key => if k = key then some v else alist_lookup rest key

/-- Property assignment on a string-keyed JavaScript object: overwrite the
existing binding for the key, or append a new one. -/
def alist_store {α : Type} : List (String × α) → String → α → List (String × α)
  | [], key, v => [(key, v)]
  | (k, v0) :: rest, key, v =>
      if k = key then (key, v) :: rest else (k, v0) :: alist_store rest key v

/-- One hour in milliseconds, the fallback trust window of
get_token_expiration. -/
def hour_ms : Int := 3600000

/-- get_token_expiration (token-manager.ts lines 14-41): split the JWT on
dots; with exactly three parts, decode the payload's `exp` claim (seconds
since epoch) and return it converted to milliseconds; on any failure
(wrong number of parts, undecodable payload, missing or non-numeric exp)
fall back to one hour from now. `now` is the current time, read by
`new Date()` in the source. -/
def get_token_expiration (decode_exp : String → Option Int) (now : Int)
    (jwt : String) : Int :=
  match js_split jwt '.' with
  | [_, payload, _] =>
      match decode_exp payload with
      | some exp => exp * 1000
      | none => now + hour_ms
  | _ => now + hour_ms

/-- Outcome of the single `fetch` performed by generate_database_token:
either a 2xx response whose body carries a jwt, a non-ok response with a
status, statusText and optional `error` field of the JSON body (the field
is absent when the body fails to parse, mirroring `.catch(() => ({}))`),
or a network-level error thrown by fetch itself. -/
inductive FetchOutcome where
  | success (jwt : String)
  | httpError (status : Int) (statusText : String) (errorField : Option String)
  | networkError (msg : String)
deriving DecidableEq, Repr

/-- The error-message template of generate_database_token. -/
def token_error_message (database_name : String) (detail : String) : String :=
  "Failed to generate token for database " ++ database_name ++ ": " ++ detail

/-- generate_database_token (token-manager.ts lines 46-88): on a 2xx
response return the body's jwt; on a non-ok response raise a TursoApiError
carrying the body's `error` field (or the statusText when absent) and the
response status; on a network-level error wrap it in a TursoApiError with
status 500. The requested permission is sent in the request body but never
enters the error. -/
def generate_database_token (database_name : String) (permission : Permission)
    (outcome : FetchOutcome) : Except TursoApiError String :=
  let _request_body := (permission_string permission, database_name)
  match outcome with
  | .success jwt => .ok jwt
  | .httpError status statusText errorField =>
      .error ⟨token_error_message database_name (errorField.getD statusText), status⟩
  | .networkError msg =>
      .error ⟨token_error_message database_name msg, 500⟩

/-- Result of one get_database_token call: the returned value or error, the
token cache afterwards, and whether an issuance (network) call happened. -/
structure TokenFetchResult where
  result : Except TursoApiError String
  cache : TokenCache
  issued : Bool
deriving Repr

/-- The miss path of get_database_token (token-manager.ts lines 106-119):
run the issuance; on failure propagate it without touching the cache; on
success store the fresh token at the database name, with expiry decoded
from the jwt, and return the jwt. `issue` is the outcome of the
generate_database_token call this invocation would perform. -/
def issue_and_store (issue : Except TursoApiError String)
    (decode_exp : String → Option Int) (now : Int) (cache : TokenCache)
    (database_name : String) (permission : Permission) : TokenFetchResult :=
  match issue with
  | .error e => ⟨.error e, cache, true⟩
  | .ok jwt =>
      ⟨.ok jwt,
       alist_store cache database_name
         ⟨jwt, get_token_expiration decode_exp now jwt, permission⟩,
       true⟩

/-- get_database_token (token-manager.ts lines 93-120): look up the cache
at the database name; if an entry exists whose permission equals the
requested one and whose expiry is strictly in the future, return its jwt
with no issuance; otherwise issue a fresh token and store it. -/
def get_database_token (issue : Except TursoApiError String)
    (decode_exp : String → Option Int) (now : Int) (cache : TokenCache)
    (database_name : String) (permission : Permission) : TokenFetchResult :=
  match alist_lookup cache database_name with
  | some cached_token =>
      if cached_token.permission = permission ∧ now < cached_token.expiresAt then
        ⟨.ok cached_token.jwt, cache, false⟩
      else
        issue_and_store issue decode_exp now cache database_name permission
  | none => issue_and_store issue decode_exp now cache database_name permission

/-- cleanup_expired_tokens (token-manager.ts lines 125-132): delete every
entry whose expiresAt is at or before now. -/
def cleanup_expired_tokens (now : Int) (cache : TokenCache) : TokenCache :=
  cache.filter (fun entry => decide (now < entry.2.expiresAt))

/-- DatabaseContext from src/common/types.ts: the session's remembered
current database, `undefined` at process start. -/
structure DatabaseContext where
  currentDatabase : Option String
deriving DecidableEq, Repr

/-- JavaScript truthiness of a `string | undefined` value: `undefined` and
the empty string are falsy. -/
def js_truthy : Option String → Bool
  | none => false
  | some s => s != ""

/-- The JavaScript `a || b` operator on `string | undefined` values. -/
def js_or (a b : Option String) : Option String :=
  if js_truthy a then a else b

/-- set_current_database (context.ts lines 58-62). -/
def set_current_database (_ctx : DatabaseContext) (database_name : Option String) :
    DatabaseContext :=
  ⟨database_name⟩

/-- get_current_database (context.ts lines 68-72): the session context's
current database, falling back to the configured TURSO_DEFAULT_DATABASE
under JavaScript `||`. -/
def get_current_database (ctx : DatabaseContext) (default_database : Option String) :
    Option String :=
  js_or ctx.currentDatabase default_database

/-- The message of the error thrown by resolve_database_name. -/
def no_database_message : String :=
  "No database specified. Please provide a database name or set a default database."

/-- resolve_database_name (context.ts lines 80-92): the provided name under
JavaScript `||` against get_current_database; throw when the result is
falsy (undefined or empty). -/
def resolve_database_name (provided_name : Option String) (ctx : DatabaseContext)
    (default_database : Option String) : Except String String :=
  match js_or provided_name (get_current_database ctx default_database) with
  | some database_name =>
      if database_name = "" then .error no_database_message else .ok database_name
  | none => .error no_database_message

/-- Result of the database-argument handling every database tool performs:
the resolved name (or error), the session context afterwards, and the list
of set_current_database calls made. -/
structure OperationContextResult where
  resolved : Except String String
  ctx : DatabaseContext
  context_updates : List String
deriving Repr

/-- The shared prologue of the list_tables, execute_query, describe_table
and vector_search handlers (handler.ts lines 299-330 and analogues):
resolve the database name, then `if (database) set_current_database(database)`
— the context is updated exactly once, and only when the argument is
truthy. -/
def handle_database_argument (database : Option String) (ctx : DatabaseContext)
    (default_database : Option String) : OperationContextResult :=
  let resolved := resolve_database_name database ctx default_database
  match database with
  | some s =>
      if s = "" then ⟨resolved, ctx, []⟩
      else ⟨resolved, set_current_database ctx (some s), [s]⟩
  | none => ⟨resolved, ctx, []⟩

/-- A libsql client as created by get_database_client: the URL and the auth
token it was created with (createClient captures both for its lifetime). -/
structure Client where
  url : String
  authToken : String
deriving DecidableEq, Repr

/-- The client cache of token-manager.ts line 276: an object keyed by the
string `database_name:permission`. -/
abbrev ClientCache := List (String × Client)

/-- The cache key of get_database_client (token-manager.ts line 286). -/
def client_cache_key (database_name : String) (permission : Permission) : String :=
  database_name ++ ":" ++ permission_string permission

/-- Result of one get_database_client call: the client or error, both
caches afterwards, and whether get_database_token was invoked. -/
structure ClientFetchResult where
  result : Except TursoApiError Client
  token_cache : TokenCache
  client_cache : ClientCache
  token_requested : Bool
deriving Repr

/-- get_database_client (token-manager.ts lines 281-320): return the cached
client for `database_name:permission` when present, without consulting the
token cache at all; otherwise obtain a token via get_database_token, build
a client against `https://name-org.turso.io` and cache it. -/
def get_database_client (issue : Except TursoApiError String)
    (decode_exp : String → Option Int) (now : Int) (organization : String)
    (token_cache : TokenCache) (client_cache : ClientCache)
    (database_name : String) (permission : Permission) : ClientFetchResult :=
  let cache_key := client_cache_key database_name permission
  match alist_lookup client_cache cache_key with
  | some client => ⟨.ok client, token_cache, client_cache, false⟩
  | none =>
      let fetched := get_database_token issue decode_exp now token_cache
        database_name permission
      match fetched.result with
      | .error e => ⟨.error e, fetched.cache, client_cache, true⟩
      | .ok token =>
          let client : Client :=
            ⟨"https://" ++ database_name ++ "-" ++ organization ++ ".turso.io",
             token⟩
          ⟨.ok client, fetched.cache,
           alist_store client_cache cache_key client, true⟩

/-- Result of the permission-selection and client-fetch part of
execute_query: the permission chosen from the query text and the client
fetch performed with it. -/
structure QueryDispatchResult where
  permission : Permission
  client : ClientFetchResult
deriving Repr

/-- execute_query (token-manager.ts lines 357-388): classify the query as
read-only exactly when its trimmed, lowercased text starts with "select",
and fetch the client at the chosen permission. -/
def execute_query (issue : Except TursoApiError String)
    (decode_exp : String → Option Int) (now : Int) (organization : String)
    (token_cache : TokenCache) (client_cache : ClientCache)
    (database_name : String) (query : String) : QueryDispatchResult :=
  let is_read_only := js_starts_with (js_to_lower (js_trim query)) "select"
  let permission := if is_read_only then Permission.readOnly else Permission.fullAccess
  ⟨permission,
   get_database_client issue decode_exp now organization token_cache client_cache
     database_name permission⟩

/-! ### Helper lemmas about the association-list model of JavaScript objects -/

theorem alist_lookup_store_self {α : Type} (l : List (String × α)) (k : String)
    (v : α) : alist_lookup (alist_store l k v) k = some v := by
  induction l with
  | nil => simp [alist_store, alist_lookup]
  | cons hd tl ih =>
      obtain ⟨k0, v0⟩ := hd
      by_cases h : k0 = k
      · simp [alist_store, h, alist_lookup]
      · simp [alist_store, h, alist_lookup, ih]

theorem alist_lookup_store_other {α : Type} (l : List (String × α)) (k k2 : String)
    (v : α) (h : k2 ≠ k) :
    alist_lookup (alist_store l k v) k2 = alist_lookup l k2 := by
  have hne : k ≠ k2 := Ne.symm h
  induction l with
  | nil => simp [alist_store, alist_lookup, hne]
  | cons hd tl ih =>
      obtain ⟨k0, v0⟩ := hd
      by_cases hk : k0 = k
      · subst hk
        simp [alist_store, alist_lookup, hne]
      · simp [alist_store, hk, alist_lookup, ih]

theorem js_or_of_falsy (a b : Option String) (h : js_truthy a = false) :
    js_or a b = b := by
  simp [js_or, h]

theorem js_or_of_truthy (a b : Option String) (h : js_truthy a = true) :
    js_or a b = a := by
  simp [js_or, h]

theorem js_truthy_some_ne (s : String) (h : s ≠ "") :
    js_truthy (some s) = true := by
  simp [js_truthy, h]

/-! ### Case equations for get_database_token -/

theorem issue_and_store_error (e : TursoApiError) (decode_exp : String → Option Int)
    (now : Int) (cache : TokenCache) (database_name : String) (permission : Permission) :
    issue_and_store (.error e) decode_exp now cache database_name permission
      = ⟨.error e, cache, true⟩ := rfl

theorem issue_and_store_ok (jwt : String) (decode_exp : String → Option Int)
    (now : Int) (cache : TokenCache) (database_name : String) (permission : Permission) :
    issue_and_store (.ok jwt) decode_exp now cache database_name permission
      = ⟨.ok jwt,
         alist_store cache database_name
           ⟨jwt, get_token_expiration decode_exp now jwt, permission⟩,
         true⟩ := rfl

theorem get_database_token_hit (issue : Except TursoApiError String)
    (decode_exp : String → Option Int) (now : Int) (cache : TokenCache)
    (database_name : String) (permission : Permission) (ct : CachedToken)
    (hl : alist_lookup cache database_name = some ct)
    (hp : ct.permission = permission) (he : now < ct.expiresAt) :
    get_database_token issue decode_exp now cache database_name permission
      = ⟨.ok ct.jwt, cache, false⟩ := by
  unfold get_database_token
  rw [hl]
  exact if_pos ⟨hp, he⟩

theorem get_database_token_stale (issue : Except TursoApiError String)
    (decode_exp : String → Option Int) (now : Int) (cache : TokenCache)
    (database_name : String) (permission : Permission) (ct : CachedToken)
    (hl : alist_lookup cache database_name = some ct)
    (hc : ¬(ct.permission = permission ∧ now < ct.expiresAt)) :
    get_database_token issue decode_exp now cache database_name permission
      = issue_and_store issue decode_exp now cache database_name permission := by
  unfold get_database_token
  rw [hl]
  exact if_neg hc

theorem get_database_token_absent (issue : Except TursoApiError String)
    (decode_exp : String → Option Int) (now : Int) (cache : TokenCache)
    (database_name : String) (permission : Permission)
    (hl : alist_lookup cache database_name = none) :
    get_database_token issue decode_exp now cache database_name permission
      = issue_and_store issue decode_exp now cache database_name permission := by
  unfold get_database_token
  rw [hl]

/-- On a successful get_database_token call, the cache afterwards holds, at
the database name, an entry carrying exactly the returned jwt and the
requested permission. -/
theorem get_database_token_success_entry (issue : Except TursoApiError String)
    (decode_exp : String → Option Int) (now : Int) (cache : TokenCache)
    (database_name : String) (permission : Permission) (jwt : String) (ct : CachedToken)
    (h1 : (get_database_token issue decode_exp now cache database_name permission).result
            = .ok jwt)
    (h2 : alist_lookup
            (get_database_token issue decode_exp now cache database_name permission).cache
            database_name = some ct) :
    ct.jwt = jwt ∧ ct.permission = permission := by
  cases hl : alist_lookup cache database_name with
  | some ct0 =>
      by_cases hc : ct0.permission = permission ∧ now < ct0.expiresAt
      · rw [get_database_token_hit issue decode_exp now cache database_name permission
          ct0 hl hc.1 hc.2] at h1 h2
        simp at h1 h2
        rw [hl] at h2
        cases h2
        exact ⟨h1, hc.1⟩
      · rw [get_database_token_stale issue decode_exp now cache database_name permission
          ct0 hl hc] at h1 h2
        cases issue with
        | error e => rw [issue_and_store_error] at h1; simp at h1
        | ok j =>
            rw [issue_and_store_ok] at h1 h2
            simp at h1 h2
            rw [alist_lookup_store_self] at h2
            cases h2
            exact ⟨h1, rfl⟩
  | none =>
      rw [get_database_token_absent issue decode_exp now cache database_name permission
        hl] at h1 h2
      cases issue with
      | error e => rw [issue_and_store_error] at h1; simp at h1
      | ok j =>
          rw [issue_and_store_ok] at h1 h2
          simp at h1 h2
          rw [alist_lookup_store_self] at h2
          cases h2
          exact ⟨h1, rfl⟩

/-! ### Claim theorems -/

/-- C1 (counterexample): the token cache does NOT keep independent entries
for the two permission levels of one database. It is keyed by database name
alone, so storing the read-only token for "db" overwrites the full-access
entry for "db": after issuing a full-access token "h.pA.s" (valid until
time 1000000000) and then a read-only token "h.pB.s" for the same database,
the cache holds only the read-only entry, and a full-access request at time
0 — well within the first token's validity — is not served "h.pA.s" from
cache but performs a fresh issuance. -/
theorem c1_counterexample :
    let d : String → Option Int := fun _ => some 1000000
    let s1 := get_database_token (.ok "h.pA.s") d 0 [] "db" .fullAccess
    let s2 := get_database_token (.ok "h.pB.s") d 0 s1.cache "db" .readOnly
    let s3 := get_database_token (.ok "h.pC.s") d 0 s2.cache "db" .fullAccess
    s1.result = .ok "h.pA.s" ∧
    s1.cache = [("db", ⟨"h.pA.s", 1000000000, .fullAccess⟩)] ∧
    s2.cache = [("db", ⟨"h.pB.s", 1000000000, .readOnly⟩)] ∧
    s3.issued = true ∧
    s3.result = .ok "h.pC.s" ∧
    "h.pC.s" ≠ "h.pA.s" :=
  ⟨rfl, rfl, rfl, rfl, rfl, by decide⟩

/-- C1 (amended): the token cache keeps at most one entry per database
name, keyed by the name alone; the entry records its permission and a
cached token is served only when its permission equals the requested one
(in particular a full-access token is never served for a read-only
request), but a successful issuance at one permission level overwrites the
same database's entry at the other level, while entries of other database
names are left unchanged. -/
theorem c1_amended (issue : Except TursoApiError String)
    (decode_exp : String → Option Int) (now : Int) (cache : TokenCache)
    (database_name : String) (permission : Permission) :
    ((get_database_token issue decode_exp now cache database_name permission).issued
        = false →
      ∀ ct, alist_lookup cache database_name = some ct →
        ct.permission = permission ∧
        (get_database_token issue decode_exp now cache database_name permission).result
          = .ok ct.jwt) ∧
    (∀ jwt, issue = .ok jwt →
      (get_database_token issue decode_exp now cache database_name permission).issued
          = true →
      alist_lookup
          (get_database_token issue decode_exp now cache database_name permission).cache
          database_name
        = some ⟨jwt, get_token_expiration decode_exp now jwt, permission⟩) ∧
    (∀ k, k ≠ database_name →
      alist_lookup
          (get_database_token issue decode_exp now cache database_name permission).cache
          k
        = alist_lookup cache k) := by
  refine ⟨?_, ?_, ?_⟩
  · intro hissued ct hct
    by_cases hc : ct.permission = permission ∧ now < ct.expiresAt
    · rw [get_database_token_hit issue decode_exp now cache database_name permission
        ct hct hc.1 hc.2]
      exact ⟨hc.1, rfl⟩
    · rw [get_database_token_stale issue decode_exp now cache database_name permission
        ct hct hc] at hissued
      cases issue with
      | error e => rw [issue_and_store_error] at hissued; simp at hissued
      | ok j => rw [issue_and_store_ok] at hissued; simp at hissued
  · intro jwt hjwt _hissued
    subst hjwt
    cases hl : alist_lookup cache database_name with
    | some ct =>
        by_cases hc : ct.permission = permission ∧ now < ct.expiresAt
        · exfalso
          rw [get_database_token_hit (.ok jwt) decode_exp now cache database_name
            permission ct hl hc.1 hc.2] at _hissued
          simp at _hissued
        · rw [get_database_token_stale (.ok jwt) decode_exp now cache database_name
            permission ct hl hc, issue_and_store_ok]
          exact alist_lookup_store_self cache database_name _
    | none =>
        rw [get_database_token_absent (.ok jwt) decode_exp now cache database_name
          permission hl, issue_and_store_ok]
        exact alist_lookup_store_self cache database_name _
  · intro k hk
    cases hl : alist_lookup cache database_name with
    | some ct =>
        by_cases hc : ct.permission = permission ∧ now < ct.expiresAt
        · rw [get_database_token_hit issue decode_exp now cache database_name permission
            ct hl hc.1 hc.2]
        · rw [get_database_token_stale issue decode_exp now cache database_name permission
            ct hl hc]
          cases issue with
          | error e => rw [issue_and_store_error]
          | ok j =>
              rw [issue_and_store_ok]
              exact alist_lookup_store_other cache database_name k _ hk
    | none =>
        rw [get_database_token_absent issue decode_exp now cache database_name
          permission hl]
        cases issue with
        | error e => rw [issue_and_store_error]
        | ok j =>
            rw [issue_and_store_ok]
            exact alist_lookup_store_other cache database_name k _ hk

/-- Witness for c1_amended: a concrete cache hit at matching permission is
served the cached jwt. -/
theorem c1_amended_witness :
    (⟨"t", 5, Permission.readOnly⟩ : CachedToken).permission = Permission.readOnly ∧
    (get_database_token (.ok "x") (fun _ => none) 3
        [("db", ⟨"t", 5, Permission.readOnly⟩)] "db" Permission.readOnly).result
      = .ok "t" :=
  (c1_amended (.ok "x") (fun _ => none) 3 [("db", ⟨"t", 5, Permission.readOnly⟩)]
      "db" Permission.readOnly).1 rfl ⟨"t", 5, Permission.readOnly⟩ rfl

/-- C2: a cached entry is served only when its expiry is strictly in the
future (so a token past its expires_at is never returned from cache; the
only other way a call returns is by a fresh issuance), and the periodic
cleanup removes exactly the entries whose expires_at is at or before now. -/
theorem c2_no_expired_token_served (issue : Except TursoApiError String)
    (decode_exp : String → Option Int) (now : Int) (cache : TokenCache)
    (database_name : String) (permission : Permission) :
    ((get_database_token issue decode_exp now cache database_name permission).issued
        = false →
      ∃ ct, alist_lookup cache database_name = some ct ∧
        (get_database_token issue decode_exp now cache database_name permission).result
          = .ok ct.jwt ∧
        ct.permission = permission ∧ now < ct.expiresAt) ∧
    (∀ entry ∈ cleanup_expired_tokens now cache, now < entry.2.expiresAt) ∧
    (∀ entry ∈ cache, now < entry.2.expiresAt →
      entry ∈ cleanup_expired_tokens now cache) := by
  refine ⟨?_, ?_, ?_⟩
  · intro hissued
    cases hl : alist_lookup cache database_name with
    | some ct =>
        by_cases hc : ct.permission = permission ∧ now < ct.expiresAt
        · refine ⟨ct, rfl, ?_, hc.1, hc.2⟩
          rw [get_database_token_hit issue decode_exp now cache database_name permission
            ct hl hc.1 hc.2]
        · exfalso
          rw [get_database_token_stale issue decode_exp now cache database_name permission
            ct hl hc] at hissued
          cases issue with
          | error e => rw [issue_and_store_error] at hissued; simp at hissued
          | ok j => rw [issue_and_store_ok] at hissued; simp at hissued
    | none =>
        exfalso
        rw [get_database_token_absent issue decode_exp now cache database_name
          permission hl] at hissued
        cases issue with
        | error e => rw [issue_and_store_error] at hissued; simp at hissued
        | ok j => rw [issue_and_store_ok] at hissued; simp at hissued
  · intro entry hmem
    have := List.mem_filter.mp hmem
    simpa using this.2
  · intro entry hmem hlive
    exact List.mem_filter.mpr ⟨hmem, by simpa using hlive⟩

/-- Witness for c2_no_expired_token_served: a concrete hit on an unexpired
entry, and cleanup on a two-entry cache with one expired entry. -/
theorem c2_witness :
    (∃ ct, alist_lookup [("db", (⟨"t", 9, Permission.fullAccess⟩ : CachedToken))] "db"
        = some ct ∧
      (get_database_token (.ok "x") (fun _ => none) 4
          [("db", ⟨"t", 9, Permission.fullAccess⟩)] "db" Permission.fullAccess).result
        = .ok ct.jwt ∧
      ct.permission = Permission.fullAccess ∧ (4 : Int) < ct.expiresAt) ∧
    ("old", (⟨"u", 2, Permission.readOnly⟩ : CachedToken)) ∈
      ([("old", ⟨"u", 2, Permission.readOnly⟩),
        ("db", ⟨"t", 9, Permission.fullAccess⟩)] : TokenCache) ∧
    ("db", (⟨"t", 9, Permission.fullAccess⟩ : CachedToken)) ∈
      cleanup_expired_tokens 4
        [("old", ⟨"u", 2, Permission.readOnly⟩), ("db", ⟨"t", 9, Permission.fullAccess⟩)] :=
  ⟨(c2_no_expired_token_served (.ok "x") (fun _ => none) 4
      [("db", ⟨"t", 9, Permission.fullAccess⟩)] "db" Permission.fullAccess).1 rfl,
   by decide,
   (c2_no_expired_token_served (.ok "x") (fun _ => none) 4
      [("old", ⟨"u", 2, Permission.readOnly⟩), ("db", ⟨"t", 9, Permission.fullAccess⟩)]
      "db" Permission.fullAccess).2.2
     ("db", ⟨"t", 9, Permission.fullAccess⟩) (by decide) (by decide)⟩

/-- C3: if a get_database_token call succeeds and the entry it left in the
cache is still within its validity window at the time of a second call for
the same (database_name, permission), the second call returns exactly the
same token, performs no issuance (the second call's issuance outcome is
arbitrary and unused), and leaves the cache unchanged. -/
theorem c3_second_call_returns_same (issue1 issue2 : Except TursoApiError String)
    (d1 d2 : String → Option Int) (t1 t2 : Int) (cache : TokenCache)
    (database_name : String) (permission : Permission) (jwt : String) (ct : CachedToken)
    (h1 : (get_database_token issue1 d1 t1 cache database_name permission).result
            = .ok jwt)
    (h2 : alist_lookup
            (get_database_token issue1 d1 t1 cache database_name permission).cache
            database_name = some ct)
    (h3 : t2 < ct.expiresAt) :
    get_database_token issue2 d2 t2
        (get_database_token issue1 d1 t1 cache database_name permission).cache
        database_name permission
      = ⟨.ok jwt,
         (get_database_token issue1 d1 t1 cache database_name permission).cache,
         false⟩ := by
  obtain ⟨hjwt, hperm⟩ := get_database_token_success_entry issue1 d1 t1 cache
    database_name permission jwt ct h1 h2
  rw [get_database_token_hit issue2 d2 t2 _ database_name permission ct h2 hperm h3,
    hjwt]

/-- Witness for c3_second_call_returns_same: after a fresh issuance at time
0 with expiry 10000, a second call at time 5000 is served from cache even
though its own issuance outcome is an error. -/
theorem c3_witness :
    get_database_token (.error ⟨"boom", 500⟩) (fun _ => none) 5000
        (get_database_token (.ok "h.p.s") (fun _ => some 10) 0 [] "db"
          Permission.readOnly).cache
        "db" Permission.readOnly
      = ⟨.ok "h.p.s",
         (get_database_token (.ok "h.p.s") (fun _ => some 10) 0 [] "db"
           Permission.readOnly).cache,
         false⟩ :=
  c3_second_call_returns_same (.ok "h.p.s") (.error ⟨"boom", 500⟩)
    (fun _ => some 10) (fun _ => none) 0 5000 [] "db" Permission.readOnly
    "h.p.s" ⟨"h.p.s", 10000, Permission.readOnly⟩ rfl rfl (by decide)

/-- C4: on a three-part JWT whose payload decodes to a numeric exp claim,
the cached expiry is exp seconds converted to absolute milliseconds, not
now plus the configured duration; whenever the claim cannot be decoded
(undecodable payload or malformed JWT), the call still succeeds and returns
one hour after the current time. -/
theorem c4_expiration_decoding (decode_exp : String → Option Int) (now : Int)
    (jwt : String) :
    ((∀ h p s e2, js_split jwt '.' = [h, p, s] → decode_exp p = some e2 →
        get_token_expiration decode_exp now jwt = e2 * 1000) ∧
     (∀ h p s, js_split jwt '.' = [h, p, s] → decode_exp p = none →
        get_token_expiration decode_exp now jwt = now + hour_ms) ∧
     ((js_split jwt '.').length ≠ 3 →
        get_token_expiration decode_exp now jwt = now + hour_ms)) := by
  refine ⟨?_, ?_, ?_⟩
  · intro h p s e2 hsplit hdec
    simp [get_token_expiration, hsplit, hdec]
  · intro h p s hsplit hdec
    simp [get_token_expiration, hsplit, hdec]
  · intro hlen
    unfold get_token_expiration
    cases hsplit : js_split jwt '.' with
    | nil => rfl
    | cons a l1 =>
        cases l1 with
        | nil => rfl
        | cons b l2 =>
            cases l2 with
            | nil => rfl
            | cons c l3 =>
                cases l3 with
                | nil =>
                    rw [hsplit] at hlen
                    simp at hlen
                | cons d l4 => rfl

/-- Witness for c4_expiration_decoding: both the decoded-claim path and the
malformed-JWT fallback path at concrete inputs. -/
theorem c4_witness :
    get_token_expiration (fun _ => some 7) 5 "h.p.s" = 7 * 1000 ∧
    get_token_expiration (fun _ => some 7) 5 "nodots" = 5 + hour_ms :=
  ⟨(c4_expiration_decoding (fun _ => some 7) 5 "h.p.s").1 "h" "p" "s" 7 rfl rfl,
   (c4_expiration_decoding (fun _ => some 7) 5 "nodots").2.2 (by decide)⟩

/-- C5: resolve_database_name returns the provided name when present and
non-empty, else the session context's current database when set and
non-empty, else the configured default when non-empty, and throws the
no-database error — whose message instructs the caller to provide a
database name or set a default database — exactly when all three are
absent or empty. -/
theorem c5_resolution_order (provided_name : Option String) (ctx : DatabaseContext)
    (default_database : Option String) :
    ((∀ s, provided_name = some s → s ≠ "" →
        resolve_database_name provided_name ctx default_database = .ok s) ∧
     (js_truthy provided_name = false →
        ∀ c, ctx.currentDatabase = some c → c ≠ "" →
        resolve_database_name provided_name ctx default_database = .ok c) ∧
     (js_truthy provided_name = false → js_truthy ctx.currentDatabase = false →
        ∀ d2, default_database = some d2 → d2 ≠ "" →
        resolve_database_name provided_name ctx default_database = .ok d2) ∧
     (js_truthy provided_name = false → js_truthy ctx.currentDatabase = false →
        js_truthy default_database = false →
        resolve_database_name provided_name ctx default_database
          = .error "No database specified. Please provide a database name or set a default database.")) := by
  refine ⟨?_, ?_, ?_, ?_⟩
  · intro s hs hne
    subst hs
    simp [resolve_database_name, js_or, js_truthy, hne]
  · intro hp c hc hne
    unfold resolve_database_name get_current_database
    rw [hc, js_or_of_truthy _ _ (js_truthy_some_ne c hne), js_or_of_falsy _ _ hp]
    simp [hne]
  · intro hp hctx d2 hd hne
    subst hd
    unfold resolve_database_name get_current_database
    rw [js_or_of_falsy _ _ hctx, js_or_of_falsy _ _ hp]
    simp [hne]
  · intro hp hctx hd
    cases hdflt : default_database with
    | none =>
        unfold resolve_database_name get_current_database
        rw [js_or_of_falsy _ _ hctx, js_or_of_falsy _ _ hp]
        simp [no_database_message]
    | some d2 =>
        rw [hdflt] at hd
        have hd2 : d2 = "" := by
          by_contra hne
          simp [js_truthy, hne] at hd
        subst hd2
        unfold resolve_database_name get_current_database
        rw [js_or_of_falsy _ _ hctx, js_or_of_falsy _ _ hp]
        simp [no_database_message]

/-- Witness for c5_resolution_order: all four branches exercised at
concrete inputs. -/
theorem c5_witness :
    resolve_database_name (some "reports") ⟨some "ctxdb"⟩ (some "shop") = .ok "reports" ∧
    resolve_database_name none ⟨some "ctxdb"⟩ (some "shop") = .ok "ctxdb" ∧
    resolve_database_name none ⟨none⟩ (some "shop") = .ok "shop" ∧
    resolve_database_name (some "") ⟨some ""⟩ none
      = .error "No database specified. Please provide a database name or set a default database." :=
  ⟨(c5_resolution_order (some "reports") ⟨some "ctxdb"⟩ (some "shop")).1 "reports"
      rfl (by decide),
   (c5_resolution_order none ⟨some "ctxdb"⟩ (some "shop")).2.1 rfl "ctxdb" rfl (by decide),
   (c5_resolution_order none ⟨none⟩ (some "shop")).2.2.1 rfl rfl "shop" rfl (by decide),
   (c5_resolution_order (some "") ⟨some ""⟩ none).2.2.2 rfl rfl rfl⟩

/-- C6: an operation carrying an explicit non-empty database name updates
the session context to that name exactly once (one set_current_database
call) and resolves to it, while an operation without one leaves the context
untouched; and the spec's scenario holds: with configured default "shop",
resolving without a name yields "shop", then an explicit "reports" yields
"reports" and binds the context, after which resolving without a name
yields "reports", not "shop". -/
theorem c6_context_persistence (database : Option String) (ctx : DatabaseContext)
    (default_database : Option String) :
    ((∀ s, database = some s → s ≠ "" →
        (handle_database_argument database ctx default_database).context_updates = [s] ∧
        (handle_database_argument database ctx default_database).ctx = ⟨some s⟩ ∧
        (handle_database_argument database ctx default_database).resolved = .ok s) ∧
     (js_truthy database = false →
        (handle_database_argument database ctx default_database).context_updates = [] ∧
        (handle_database_argument database ctx default_database).ctx = ctx)) ∧
    ((handle_database_argument none ⟨none⟩ (some "shop")).resolved = .ok "shop" ∧
     (handle_database_argument none ⟨none⟩ (some "shop")).ctx = ⟨none⟩ ∧
     (handle_database_argument (some "reports")
        (handle_database_argument none ⟨none⟩ (some "shop")).ctx
        (some "shop")).resolved = .ok "reports" ∧
     (handle_database_argument (some "reports")
        (handle_database_argument none ⟨none⟩ (some "shop")).ctx
        (some "shop")).ctx = ⟨some "reports"⟩ ∧
     (handle_database_argument none
        (handle_database_argument (some "reports")
          (handle_database_argument none ⟨none⟩ (some "shop")).ctx
          (some "shop")).ctx
        (some "shop")).resolved = .ok "reports") := by
  refine ⟨⟨?_, ?_⟩, rfl, rfl, rfl, rfl, rfl⟩
  · intro s hs hne
    subst hs
    refine ⟨?_, ?_, ?_⟩ <;>
      simp [handle_database_argument, set_current_database, resolve_database_name,
        js_or, js_truthy, hne]
  · intro hfalsy
    cases database with
    | none => exact ⟨rfl, rfl⟩
    | some s =>
        have hs : s = "" := by
          by_contra hne
          simp [js_truthy, hne] at hfalsy
        subst hs
        exact ⟨rfl, rfl⟩

/-- Witness for c6_context_persistence: the explicit-name branch and the
no-name branch at concrete inputs. -/
theorem c6_witness :
    ((handle_database_argument (some "reports") ⟨some "old"⟩ (some "shop")).context_updates
        = ["reports"] ∧
     (handle_database_argument (some "reports") ⟨some "old"⟩ (some "shop")).ctx
        = ⟨some "reports"⟩ ∧
     (handle_database_argument (some "reports") ⟨some "old"⟩ (some "shop")).resolved
        = .ok "reports") ∧
    ((handle_database_argument none ⟨some "old"⟩ (some "shop")).context_updates = [] ∧
     (handle_database_argument none ⟨some "old"⟩ (some "shop")).ctx = ⟨some "old"⟩) :=
  ⟨(c6_context_persistence (some "reports") ⟨some "old"⟩ (some "shop")).1.1 "reports"
      rfl (by decide),
   (c6_context_persistence none ⟨some "old"⟩ (some "shop")).1.2 rfl⟩

theorem issue_and_store_issued (issue : Except TursoApiError String)
    (decode_exp : String → Option Int) (now : Int) (cache : TokenCache)
    (database_name : String) (permission : Permission) :
    (issue_and_store issue decode_exp now cache database_name permission).issued
      = true := by
  cases issue <;> rfl

/-- C7: when get_database_token fails, the failure is exactly the issuance
failure, the token cache is left untouched (no partial token occupies a
slot), and any later call for the same key at the same or a later time
attempts issuance again. -/
theorem c7_failure_leaves_cache_unchanged (issue : Except TursoApiError String)
    (decode_exp : String → Option Int) (now : Int) (cache : TokenCache)
    (database_name : String) (permission : Permission) (e : TursoApiError)
    (hfail : (get_database_token issue decode_exp now cache database_name
        permission).result = .error e) :
    issue = .error e ∧
    (get_database_token issue decode_exp now cache database_name permission).cache
      = cache ∧
    (get_database_token issue decode_exp now cache database_name permission).issued
      = true ∧
    (∀ issue2 d2 t2, now ≤ t2 →
      (get_database_token issue2 d2 t2 cache database_name permission).issued
        = true) := by
  have hmiss :
      ∀ ct, alist_lookup cache database_name = some ct →
        ¬(ct.permission = permission ∧ now < ct.expiresAt) := by
    intro ct hct hcond
    rw [get_database_token_hit issue decode_exp now cache database_name permission
      ct hct hcond.1 hcond.2] at hfail
    simp at hfail
  have hform :
      get_database_token issue decode_exp now cache database_name permission
        = issue_and_store issue decode_exp now cache database_name permission := by
    cases hl : alist_lookup cache database_name with
    | some ct =>
        exact get_database_token_stale issue decode_exp now cache database_name
          permission ct hl (hmiss ct hl)
    | none =>
        exact get_database_token_absent issue decode_exp now cache database_name
          permission hl
  rw [hform] at hfail ⊢
  cases issue with
  | ok j => rw [issue_and_store_ok] at hfail; simp at hfail
  | error e0 =>
      rw [issue_and_store_error] at hfail ⊢
      simp at hfail
      subst hfail
      refine ⟨rfl, rfl, rfl, ?_⟩
      intro issue2 d2 t2 ht
      cases hl : alist_lookup cache database_name with
      | some ct =>
          have hcond : ¬(ct.permission = permission ∧ t2 < ct.expiresAt) := by
            intro hcond2
            apply hmiss ct hl
            exact ⟨hcond2.1, lt_of_le_of_lt ht hcond2.2⟩
          rw [get_database_token_stale issue2 d2 t2 cache database_name permission
            ct hl hcond]
          exact issue_and_store_issued issue2 d2 t2 cache database_name permission
      | none =>
          rw [get_database_token_absent issue2 d2 t2 cache database_name
            permission hl]
          exact issue_and_store_issued issue2 d2 t2 cache database_name permission

/-- Witness for c7_failure_leaves_cache_unchanged: a failing issuance on a
cache holding only an expired entry leaves the cache as it was, and the
follow-up call issues again. -/
theorem c7_witness :
    (Except.error (⟨"boom", 500⟩ : TursoApiError)
        : Except TursoApiError String) = .error ⟨"boom", 500⟩ ∧
    (get_database_token (.error ⟨"boom", 500⟩) (fun _ => none) 10
        [("db", ⟨"t", 5, Permission.fullAccess⟩)] "db" Permission.fullAccess).cache
      = [("db", ⟨"t", 5, Permission.fullAccess⟩)] ∧
    (get_database_token (.error ⟨"boom", 500⟩) (fun _ => none) 10
        [("db", ⟨"t", 5, Permission.fullAccess⟩)] "db" Permission.fullAccess).issued
      = true ∧
    (∀ issue2 d2 t2, (10 : Int) ≤ t2 →
      (get_database_token issue2 d2 t2
          [("db", ⟨"t", 5, Permission.fullAccess⟩)] "db" Permission.fullAccess).issued
        = true) :=
  c7_failure_leaves_cache_unchanged (.error ⟨"boom", 500⟩) (fun _ => none) 10
    [("db", ⟨"t", 5, Permission.fullAccess⟩)] "db" Permission.fullAccess
    ⟨"boom", 500⟩ rfl

/-- C8 (counterexample): an issuance failure is not annotated with the
permission level. For a read-only token request against database "mydb"
failing with HTTP 503 and no JSON error field, the raised TursoApiError's
message is the database-name template with the statusText, and it does not
contain the permission string "read-only" (nor does TursoApiError carry a
permission field — only message and status_code exist). -/
theorem c8_counterexample :
    generate_database_token "mydb" .readOnly (.httpError 503 "Service Unavailable" none)
      = .error ⟨"Failed to generate token for database mydb: Service Unavailable", 503⟩ ∧
    str_contains "Failed to generate token for database mydb: Service Unavailable"
        (permission_string .readOnly) = false ∧
    str_contains "Failed to generate token for database mydb: Service Unavailable"
        "mydb" = true :=
  ⟨rfl, by decide, by decide⟩

/-- C8 (amended): every issuance failure propagates as a typed
TursoApiError whose message is annotated with the database name (but not
with the permission level), and no failure is swallowed: each non-2xx
response and each network error produces exactly the templated error. -/
theorem c8_amended (database_name : String) (permission : Permission)
    (status : Int) (statusText : String) (errorField : Option String) (msg : String) :
    generate_database_token database_name permission
        (.httpError status statusText errorField)
      = .error ⟨token_error_message database_name (errorField.getD statusText), status⟩ ∧
    generate_database_token database_name permission (.networkError msg)
      = .error ⟨token_error_message database_name msg, 500⟩ ∧
    (∀ outcome e, generate_database_token database_name permission outcome = .error e →
      ∃ detail, e.message = token_error_message database_name detail) := by
  refine ⟨rfl, rfl, ?_⟩
  intro outcome e he
  cases outcome with
  | success jwt => simp [generate_database_token] at he
  | httpError st stx ef =>
      refine ⟨ef.getD stx, ?_⟩
      simp [generate_database_token] at he
      rw [← he]
  | networkError m =>
      refine ⟨m, ?_⟩
      simp [generate_database_token] at he
      rw [← he]

/-- Witness for c8_amended: a concrete network failure carries the
database-name-annotated message. -/
theorem c8_witness :
    ∃ detail, (⟨token_error_message "shop" "timeout", 500⟩ : TursoApiError).message
      = token_error_message "shop" detail :=
  (c8_amended "shop" Permission.fullAccess 0 "" none "timeout").2.2
    (.networkError "timeout") ⟨token_error_message "shop" "timeout", 500⟩ rfl

/-- C9: once a client for (database_name, permission) is in the client
cache, get_database_client returns it without invoking get_database_token:
for every current time and token-cache state — in particular when the token
the client was built with is long past its expires_at — the cached client
is returned unchanged, no issuance happens, and both caches are untouched.
The token cache's expiry check is bypassed on this path. -/
theorem c9_cached_client_bypasses_token_expiry (issue : Except TursoApiError String)
    (decode_exp : String → Option Int) (now : Int) (organization : String)
    (token_cache : TokenCache) (client_cache : ClientCache)
    (database_name : String) (permission : Permission) (client : Client)
    (hc : alist_lookup client_cache (client_cache_key database_name permission)
        = some client) :
    get_database_client issue decode_exp now organization token_cache client_cache
        database_name permission
      = ⟨.ok client, token_cache, client_cache, false⟩ := by
  unfold get_database_client
  simp only []
  rw [hc]

/-- Witness for c9_cached_client_bypasses_token_expiry: a cached client
whose creation token expired at time 5 is still returned at time 1000000,
with zero token-manager activity. -/
theorem c9_witness :
    get_database_client (.ok "fresh.jwt.x") (fun _ => some 99) 1000000 "org"
        [("db", ⟨"oldTok", 5, Permission.fullAccess⟩)]
        [("db:full-access", ⟨"https://db-org.turso.io", "oldTok"⟩)]
        "db" Permission.fullAccess
      = ⟨.ok ⟨"https://db-org.turso.io", "oldTok"⟩,
         [("db", ⟨"oldTok", 5, Permission.fullAccess⟩)],
         [("db:full-access", ⟨"https://db-org.turso.io", "oldTok"⟩)],
         false⟩ :=
  c9_cached_client_bypasses_token_expiry (.ok "fresh.jwt.x") (fun _ => some 99)
    1000000 "org" [("db", ⟨"oldTok", 5, Permission.fullAccess⟩)]
    [("db:full-access", ⟨"https://db-org.turso.io", "oldTok"⟩)]
    "db" Permission.fullAccess ⟨"https://db-org.turso.io", "oldTok"⟩ rfl

/-- C10: execute_query requests a read-only token exactly when the query,
trimmed and lowercased, starts with "select"; a leading comment, WITH, or
PRAGMA — though read-only in effect — and every other statement run with a
full-access token, while a case-insensitive, whitespace-led SELECT runs
read-only. -/
theorem c10_query_permission (issue : Except TursoApiError String)
    (decode_exp : String → Option Int) (now : Int) (organization : String)
    (token_cache : TokenCache) (client_cache : ClientCache)
    (database_name : String) (query : String) :
    ((execute_query issue decode_exp now organization token_cache client_cache
          database_name query).permission = .readOnly
      ↔ js_starts_with (js_to_lower (js_trim query)) "select" = true) ∧
    (execute_query issue decode_exp now organization token_cache client_cache
        database_name "-- a comment\nSELECT 1").permission = .fullAccess ∧
    (execute_query issue decode_exp now organization token_cache client_cache
        database_name "WITH t AS (SELECT 1) SELECT * FROM t").permission
      = .fullAccess ∧
    (execute_query issue decode_exp now organization token_cache client_cache
        database_name "PRAGMA table_info(users)").permission = .fullAccess ∧
    (execute_query issue decode_exp now organization token_cache client_cache
        database_name "  SeLeCt 1").permission = .readOnly ∧
    (execute_query issue decode_exp now organization token_cache client_cache
        database_name "INSERT INTO t VALUES (1)").permission = .fullAccess := by
  refine ⟨?_, rfl, rfl, rfl, rfl, rfl⟩
  unfold execute_query
  cases hb : js_starts_with (js_to_lower (js_trim query)) "select" <;> simp [hb]

end Turso
